import Mathlib

/-!
Shallow embedding of the OIDC relying-party authentication subsystem of
node-solid-server: the per-issuer client cache (`lib/oidc-rp-client.js`),
the local password account store (`lib/user-store.js`), the account API
handlers (`lib/api/accounts/signin.js`, `signout.js`,
`discover-provider.js`) and the OIDC callback handlers
(`lib/handlers/oidc.js` and the unnamed RP handler module).

External collaborators (express, bcrypt, the `li` link-header parser, the
anvil-connect OIDC client library, the KVP file store) are modelled at
their interfaces: their results are passed in as explicit parameters, and
durable storage is an explicit state value threaded through each
operation.
-/

/-- JavaScript truthiness of a possibly-absent string value:
`undefined`/missing and the empty string are falsy, every other string is
truthy.  Used wherever the source tests `if (!x)` on a string field. -/
def jsTruthy : Option String → Bool
  | none => false
  | some s => s ≠ ""

/-- Characters that JavaScript `encodeURIComponent` leaves unescaped:
ASCII letters, digits, and `- _ . ! ~ * ' ( )` (39 is the code point of
the apostrophe). -/
def isUriUnescaped (c : Char) : Bool :=
  (65 ≤ c.toNat && c.toNat ≤ 90) || (97 ≤ c.toNat && c.toNat ≤ 122) ||
  (48 ≤ c.toNat && c.toNat ≤ 57) ||
  c = '-' || c = '_' || c = '.' || c = '!' || c = '~' || c = '*' ||
  c.toNat = 39 || c = '(' || c = ')'

/-- Uppercase hexadecimal digit for a value below 16. -/
def hexDigitChar (n : Nat) : Char :=
  if n < 10 then Char.ofNat (48 + n) else Char.ofNat (55 + n)

/-- UTF-8 byte sequence of a Unicode code point. -/
def utf8BytesOfCode (n : Nat) : List Nat :=
  if n < 128 then [n]
  else if n < 2048 then [192 + n / 64, 128 + n % 64]
  else if n < 65536 then [224 + n / 4096, 128 + (n / 64) % 64, 128 + n % 64]
  else [240 + n / 262144, 128 + (n / 4096) % 64, 128 + (n / 64) % 64, 128 + n % 64]

/-- Percent-encoding of a single byte, e.g. 64 becomes `"%40"`. -/
def percentEncodeByte (b : Nat) : String :=
  String.mk ['%', hexDigitChar (b / 16), hexDigitChar (b % 16)]

/-- JavaScript `encodeURIComponent`: unescaped characters are kept, every
other character is replaced by the percent-encoding of its UTF-8 bytes. -/
def encodeURIComponent (s : String) : String :=
  String.join (s.data.map fun c =>
    if isUriUnescaped c then String.mk [c]
    else String.join ((utf8BytesOfCode c.toNat).map percentEncodeByte))

/-! ## Session model

`express-session` provides a mutable per-request session bag; the fields
below are exactly the ones this subsystem reads or writes.  A field that
JavaScript would hold as `undefined` is `none`; `delete` also yields
`none`; an explicitly assigned string `v` is `some v`. -/

/-- The per-connection session bag, as used by the signin, signout,
callback and resume handlers. -/
structure Session where
  userId : Option String
  identified : Bool
  accessToken : Option String
  refreshToken : Option String
  idToken : Option String
  issuer : Option String
  subject : Option String
  returnToUrl : Option String
deriving DecidableEq, Repr

/-- A fresh session: every field absent, `identified` false. -/
def emptySession : Session :=
  ⟨none, false, none, none, none, none, none, none⟩

/-! ## UserStore (`lib/user-store.js`)

The KVP file store is modelled as two key-indexed partial maps, one per
collection (`users` and `users-by-email`).  `bcrypt.hash` is an external
fallible primitive; its outcome is passed in as an `Except`.  Each `store.put` may fail with a storage I/O error; the two
Boolean parameters inject those outcomes. -/

/-- A stored local account record, as assembled by `createUser`. -/
structure UserRecord where
  id : String
  email : Option String
  name : Option String
  hashedPassword : String
deriving DecidableEq, Repr

/-- The durable state of the user store: the `users` collection and the
`users-by-email` index collection. -/
structure StoreState where
  users : String → Option UserRecord
  usersByEmail : String → Option String

/-- The empty user store. -/
def emptyStore : StoreState := ⟨fun _ => none, fun _ => none⟩

/-- `store.put('users', k, v)`. -/
def storePutUsers (σ : StoreState) (k : String) (v : UserRecord) : StoreState :=
  { σ with users := fun k2 => if k2 = k then some v else σ.users k2 }

/-- `store.put('users-by-email', k, webId)`. -/
def storePutEmail (σ : StoreState) (k : String) (webId : String) : StoreState :=
  { σ with usersByEmail := fun k2 => if k2 = k then some webId else σ.usersByEmail k2 }

/-- `UserStore.normalizeEmailKey(email)`: the source applies
`encodeURIComponent` to the email, nothing more. -/
def normalizeEmailKey (email : String) : String :=
  encodeURIComponent email

/-- `UserStore.normalizeWebIdKey(webId)`. -/
def normalizeWebIdKey (webId : String) : String :=
  encodeURIComponent webId

/-- One durable write attempted by `createUser`, in execution order. -/
inductive StoreEvent where
  | putUsers (key : String)
  | putEmail (key : String)
deriving DecidableEq, Repr

/-- The ways `createUser` can reject. -/
inductive CreateUserError where
  | typeError (status : Nat) (msg : String)
  | hashError (e : String)
  | storageError (collection : String)
deriving DecidableEq, Repr

/-- `UserStore.createUser(webId, options)`: validates `webId` and
`options.password`, hashes the password, writes the account into `users`
under `normalizeWebIdKey webId`, and then — only if an email was given —
writes the email index entry into `users-by-email` under
`normalizeEmailKey email`.  `hashResult` is the outcome of `bcrypt.hash`;
`usersPutOk`/`emailPutOk` inject the outcomes of the two `store.put`
calls (a failed put rejects the promise chain and commits nothing for
that key).  Returns the outcome, the resulting store, and the trace of
attempted writes in order. -/
def createUser (webId : String) (password email nameOpt : Option String)
    (hashResult : Except String String) (usersPutOk emailPutOk : Bool)
    (σ : StoreState) :
    Except CreateUserError Unit × StoreState × List StoreEvent :=
  if webId = "" then (.error (.typeError 400 "No WebID Url provided"), σ, [])
  else if !jsTruthy password then
    (.error (.typeError 400 "No password provided"), σ, [])
  else
    match hashResult with
    | .error e => (.error (.hashError e), σ, [])
    | .ok hashed =>
      let user : UserRecord := ⟨webId, email, nameOpt, hashed⟩
      let userKey := normalizeWebIdKey webId
      if !usersPutOk then
        (.error (.storageError "users"), σ, [.putUsers userKey])
      else
        let σ1 := storePutUsers σ userKey user
        if !jsTruthy email then (.ok (), σ1, [.putUsers userKey])
        else
          let emailKey := normalizeEmailKey (email.getD "")
          if !emailPutOk then
            (.error (.storageError "users-by-email"), σ1,
              [.putUsers userKey, .putEmail emailKey])
          else
            (.ok (), storePutEmail σ1 emailKey webId,
              [.putUsers userKey, .putEmail emailKey])

/-- `UserStore.findUser(webId)`: exact lookup in `users` under the
normalized key. -/
def findUser (σ : StoreState) (webId : String) : Option UserRecord :=
  σ.users (normalizeWebIdKey webId)


/-! ## Signin handler (`lib/api/accounts/signin.js`)

The handler reads `username` and `password` from the request body, looks
the user up in the user store, checks the password with
`bcrypt.compare` (modelled by the `bcryptCompare` parameter), and on
success binds the session and redirects to the local `/authorize`
endpoint with selected query parameters copied from the body.  Thrown
errors are caught and surfaced as `res.status(err.status).send(err.message)`. -/

/-- The query parameters `signin` copies from the request body onto the
`/authorize` redirect. -/
def authorizeParams : List String :=
  ["response_type", "display", "scope", "client_id", "redirect_uri",
   "state", "nonce"]

/-- Observable outcome of the signin handler. -/
inductive SigninResult where
  | httpError (status : Nat) (msg : String)
  | redirectToAuthorize (rootUrl : String) (query : List (String × Option String))
deriving DecidableEq, Repr

/-- The signin handler.  `σ` is the user store, `bcryptCompare` the
external password comparison, `ldpAuthOidc` whether `ldp.auth === 'oidc'`,
`body` the parsed urlencoded request body, `rootUrl` the server root. -/
def signin (σ : StoreState) (bcryptCompare : String → String → Bool)
    (ldpAuthOidc : Bool) (body : String → Option String) (rootUrl : String)
    (s : Session) : SigninResult × Session :=
  let username := body "username"
  let password := body "password"
  if !jsTruthy username then (.httpError 400 "Username is required", s)
  else if !jsTruthy password then (.httpError 400 "Password is required", s)
  else if !ldpAuthOidc then
    (.httpError 500 "Invalid signin method - oidc not enabled", s)
  else
    match findUser σ (username.getD "") with
    | none => (.httpError 400 "No user found for that username", s)
    | some foundUser =>
      if !bcryptCompare (password.getD "") foundUser.hashedPassword then
        (.httpError 400 "Invalid password for user", s)
      else
        -- Password matches: bind the session and redirect to /authorize
        (.redirectToAuthorize rootUrl (authorizeParams.map fun p => (p, body p)),
         { s with userId := some foundUser.id, identified := true,
                  subject := some foundUser.id })

/-! ## Signout handler (`lib/api/accounts/signout.js`)

When the session holds an id token and OIDC auth is enabled, the handler
fires an upstream revocation chain (`clientForIssuer` then
`client.signout(idToken)`) whose promise is not awaited and whose
rejection is caught and only logged.  It then unconditionally clears the
session and redirects. -/

/-- Result of the signout handler: the mutated session, the redirect
target, and whether an upstream revocation attempt was started. -/
structure SignoutResult where
  session : Session
  redirectUrl : String
  upstreamAttempted : Bool
deriving DecidableEq, Repr

/-- The signout handler.  `upstream` is the settled outcome of the
fire-and-forget revocation chain; the source attaches only a logging
`catch` to it, so it cannot influence the response or the session. -/
def signout (ldpAuthOidc : Bool) (_upstream : Except String Unit)
    (s : Session) : SignoutResult :=
  let attempted := jsTruthy s.idToken && ldpAuthOidc
  -- `upstream` is intentionally unused: the chain result is discarded and
  -- its errors are swallowed by the logging catch handler in the source.
  { session := { s with userId := some "", identified := false },
    redirectUrl := "/signed_out.html",
    upstreamAttempted := attempted }

/-! ## RP callback handler (unnamed module, `authCodeFlowCallback`)

The route `GET /rp/:issuer_id` first checks the issuer-id path segment,
then resolves the client via `oidc.clients.clientForIssuer(issuer)` and
validates the auth response (`validateResponse` performs the code
exchange and token validation).  Both of those are external async calls;
their settled outcomes are passed in.  On success the handler writes the
tokens and the subject claim into the session and calls `next()`; any
rejection lands in the `catch` and becomes `next(error(400, err))`. -/

/-- A validated OIDC auth response: the decoded id-token subject claim
and the token response parameters. -/
structure OidcResponse where
  sub : String
  access_token : Option String
  refresh_token : Option String
deriving DecidableEq, Repr

/-- How the callback middleware continues the express chain. -/
inductive CallbackResult where
  | nextError (status : Nat) (msg : String)
  | nextOk
deriving DecidableEq, Repr

/-- `authCodeFlowCallback` of the unnamed RP handler module.  Returns the
continuation, the resulting session, and whether the ClientRegistry
(`clientForIssuer`) was invoked. -/
def authCodeFlowCallback (issuerId : Option String)
    (clientResult : Except String Unit)
    (validateResult : Except String OidcResponse)
    (s : Session) : CallbackResult × Session × Bool :=
  if !jsTruthy issuerId then
    (.nextError 400 "Invalid auth response uri - missing issuer id", s, false)
  else
    match clientResult with
    | .error e => (.nextError 400 e, s, true)
    | .ok _ =>
      match validateResult with
      | .error e => (.nextError 400 e, s, true)
      | .ok r =>
        (.nextOk,
         { s with accessToken := r.access_token,
                  refreshToken := r.refresh_token,
                  userId := some r.sub,
                  identified := true }, true)

/-! ## Resume-user-flow handler (unnamed module, `resumeUserFlow`) -/

/-- The response produced by `resumeUserFlow`. -/
inductive ResumeResult where
  | redirect (status : Nat) (url : String)
  | send (body : String)
deriving DecidableEq, Repr

/-- `resumeUserFlow`: when the session holds a truthy `returnToUrl`, the
handler appends `?access_token=` and the access token whenever one is
present (unconditionally with a `?`, even if the URL already has a query
string), deletes `returnToUrl` from the session, and redirects with 302;
otherwise it sends the fixed failure body. -/
def resumeUserFlow (s : Session) : ResumeResult × Session :=
  if jsTruthy s.returnToUrl then
    let returnToUrl := s.returnToUrl.getD ""
    let returnToUrl :=
      if jsTruthy s.accessToken then
        returnToUrl ++ "?access_token=" ++ s.accessToken.getD ""
      else returnToUrl
    (.redirect 302 returnToUrl, { s with returnToUrl := none })
  else
    (.send "Resume User Flow (failed)", s)

/-! ## Session init (`lib/handlers/oidc.js`, `authSessionInit`)

Records the WebID detected from the verified access-token claims (or
user info) in the session; skips the session entirely when no WebID was
detected. -/

/-- `authSessionInit`: `webId` is the result of `detectUser(req)`. -/
def authSessionInit (webId : Option String) (s : Session) : Session :=
  if !jsTruthy webId then s
  else { s with userId := webId, identified := true }

/-! ## Discover-provider handler (`lib/api/accounts/discover-provider.js`)

Probes the supplied identity URL with an OPTIONS request, reads the
`Link` response header, parses it with the external `li` library
(modelled as the `liParse` parameter), and on finding an `oidc.issuer`
relation asks the multi-RP client for the authorization URL of that
issuer.  Every earlier failure responds directly and never reaches the
authorization-URL step. -/

/-- The probe response, reduced to the only header the handler reads. -/
structure ProbeResponse where
  linkHeader : Option String
deriving DecidableEq, Repr

/-- Observable outcome of the discover-provider handler. -/
inductive DiscoverResult where
  | httpError (status : Nat) (msg : String)
  | redirect (authUrl : String)
  | nextError (e : String)
deriving DecidableEq, Repr

/-- JavaScript property access `linkHeaders['oidc.issuer']` on the map
produced by `li.parse`, modelled over an association list. -/
def lookupRel (l : List (String × String)) (rel : String) : Option String :=
  (l.find? fun p => p.1 = rel).map fun p => p.2

/-- The discover-provider handler.  `webidIsUri` is the result of
`validUrl.isUri(req.body.webid)`; `probe` the settled OPTIONS request;
`liParse` the external link-header parser; `clientsPresent` whether the
multi-RP client subsystem is initialized; `authUrlForIssuer` the settled
outcome of the authorization-URL flow for a given issuer.  The Boolean in
the result records whether that flow (a further network call) was
started. -/
def discoverProvider (webidIsUri ldpAuthOidc : Bool)
    (probe : Except String ProbeResponse)
    (liParse : String → List (String × String))
    (clientsPresent : Bool)
    (authUrlForIssuer : String → Except String String) :
    DiscoverResult × Bool :=
  if !webidIsUri then (.httpError 400 "This is not a valid URI", false)
  else if !ldpAuthOidc then
    (.httpError 500 "Invalid signin method - oidc not enabled", false)
  else
    match probe with
    | .error _ => (.httpError 400 "Did not find a valid endpoint", false)
    | .ok resp =>
      if !jsTruthy resp.linkHeader then
        (.httpError 400 "The URI requested is not a valid endpoint", false)
      else
        let linkHeaders := liParse (resp.linkHeader.getD "")
        if !jsTruthy (lookupRel linkHeaders "oidc.issuer") then
          (.httpError 400 "The URI requested is not a valid endpoint", false)
        else if !clientsPresent then
          (.httpError 500 "OIDC multi-rp client not initialized", false)
        else
          match authUrlForIssuer ((lookupRel linkHeaders "oidc.issuer").getD "") with
          | .ok u => (.redirect u, true)
          | .error e => (.nextError e, true)

/-! ## Per-issuer client cache (`lib/oidc-rp-client.js`, `clientForIssuer`)

`clientForIssuer` runs `clients.get(issuer)` against the durable client
store and, when no record is present, runs `initClient` — which performs
provider discovery, dynamic client registration, and finally
`clients.put` of the freshly built client.  The source keeps no in-flight
registration ledger, so the behaviour under concurrent callers is decided
by the interleaving of these asynchronous steps.  The model below focuses
on one fixed issuer: the store cell for that issuer, a counter of
`initClient` registration runs, and two callers each executing the steps
of `clientForIssuer`.  Distinct registration runs build distinct client
objects, identified here by their registration serial number. -/

/-- Shared registry state for one issuer: the durable store cell and the
number of RegistrationProtocol (`initClient` discovery+registration)
invocations so far. -/
structure RegState where
  store : Option Nat
  regCount : Nat
deriving DecidableEq, Repr

/-- Program counter of one caller running `clientForIssuer`:
`start` is about to await `clients.get`; `gotClient c` holds the value the
store returned; `registered c` has run discovery+registration (building
fresh client `c`) and is about to `clients.put` it; `done c` resolved with
client `c`. -/
inductive ThreadPC where
  | start
  | gotClient (c : Option Nat)
  | registered (c : Nat)
  | done (c : Nat)
deriving DecidableEq, Repr

/-- One atomic step of a caller inside `clientForIssuer`. -/
def stepThread (s : RegState) : ThreadPC → RegState × ThreadPC
  | .start => (s, .gotClient s.store)
  | .gotClient (some c) => (s, .done c)
  | .gotClient none =>
      ({ s with regCount := s.regCount + 1 }, .registered s.regCount)
  | .registered c => ({ s with store := some c }, .done c)
  | .done c => (s, .done c)

/-- Two concurrent callers of `clientForIssuer` for the same issuer. -/
structure Sys2 where
  reg : RegState
  t0 : ThreadPC
  t1 : ThreadPC
deriving DecidableEq, Repr

/-- Run one step of the scheduled caller (`false` = first caller). -/
def stepSys (sys : Sys2) (which : Bool) : Sys2 :=
  if which then
    let rp := stepThread sys.reg sys.t1
    { sys with reg := rp.1, t1 := rp.2 }
  else
    let rp := stepThread sys.reg sys.t0
    { sys with reg := rp.1, t0 := rp.2 }

/-- Run a schedule (an arbitrary interleaving of the two callers). -/
def runSched (sched : List Bool) (sys : Sys2) : Sys2 :=
  sched.foldl stepSys sys

/-- Initial system: no client record exists yet for the issuer, no
registration has run, both callers are about to call `clients.get`. -/
def initSys2 : Sys2 := ⟨⟨none, 0⟩, .start, .start⟩

/-- The interleaving in which both callers' `clients.get` reads resolve
before either caller starts registering. -/
def racySchedule : List Bool := [false, true, false, true, false, true]

/-! ## Theorems -/

/-- Claim C1: the property asks that N concurrent `clientForIssuer`
calls for a fresh issuer cause exactly one registration and share one
record.  The source keeps no in-flight registration ledger: under the
interleaving in which both callers' `clients.get` reads resolve before
either registration starts, `initClient` (the RegistrationProtocol run)
executes twice and the two callers resolve with distinct client records
(the second `clients.put` silently overwrites the first). -/
theorem clientForIssuer_double_registration :
    (runSched racySchedule initSys2).reg.regCount = 2 ∧
    (runSched racySchedule initSys2).t0 = ThreadPC.done 0 ∧
    (runSched racySchedule initSys2).t1 = ThreadPC.done 1 ∧
    ThreadPC.done 0 ≠ ThreadPC.done 1 := by
  decide

/-- Claim C3: when the issuer id is present but the code
exchange/response validation (`validateResponse`) rejects, the callback
handler continues with `next(error(400, err))` and the session is
returned exactly as it was — no token, user id or identified flag is
written. -/
theorem authCodeFlowCallback_failure_leaves_session (issuerId : Option String)
    (e : String) (s : Session) (hIss : jsTruthy issuerId = true) :
    authCodeFlowCallback issuerId (.ok ()) (.error e) s =
      (.nextError 400 e, s, true) := by
  simp [authCodeFlowCallback, hIss]

/-- Witness for C3 at a concrete issuer, failing exchange and fresh
session. -/
theorem authCodeFlowCallback_failure_witness :
    authCodeFlowCallback (some "https%3A%2F%2Fop.example") (.ok ())
      (.error "invalid code") emptySession =
      (.nextError 400 "invalid code", emptySession, true) :=
  authCodeFlowCallback_failure_leaves_session
    (some "https%3A%2F%2Fop.example") "invalid code" emptySession (by decide)

/-- Claim C6: with a falsy issuer-id path segment the callback handler
answers `next(error(400, ...))` immediately, leaves the session alone,
and never invokes the ClientRegistry (`clientForIssuer`). -/
theorem authCodeFlowCallback_missing_issuer (issuerId : Option String)
    (clientResult : Except String Unit)
    (validateResult : Except String OidcResponse) (s : Session)
    (hIss : jsTruthy issuerId = false) :
    authCodeFlowCallback issuerId clientResult validateResult s =
      (.nextError 400 "Invalid auth response uri - missing issuer id", s, false) := by
  simp [authCodeFlowCallback, hIss]

/-- Witness for C6: absent issuer id, fresh session. -/
theorem authCodeFlowCallback_missing_issuer_witness :
    authCodeFlowCallback none (.ok ())
      (.ok ⟨"https://alice.example/profile#me", some "tok", none⟩) emptySession =
      (.nextError 400 "Invalid auth response uri - missing issuer id",
        emptySession, false) :=
  authCodeFlowCallback_missing_issuer none (.ok ())
    (.ok ⟨"https://alice.example/profile#me", some "tok", none⟩) emptySession
    (by decide)

/-- Claim C7: signout always clears the session (`userId` set to the
empty string, `identified` to false) and redirects to the signed-out
page, and its entire observable result is independent of the upstream
revocation outcome — the fire-and-forget chain only gets a logging
catch. -/
theorem signout_always_clears (ldpAuthOidc : Bool)
    (up1 up2 : Except String Unit) (s : Session) :
    (signout ldpAuthOidc up1 s).session.userId = some "" ∧
    (signout ldpAuthOidc up1 s).session.identified = false ∧
    (signout ldpAuthOidc up1 s).redirectUrl = "/signed_out.html" ∧
    signout ldpAuthOidc up1 s = signout ldpAuthOidc up2 s := by
  refine ⟨rfl, rfl, rfl, rfl⟩

/-- Claim C10: with a truthy saved `returnToUrl` and a truthy access
token, `resumeUserFlow` redirects 302 to
`returnToUrl ++ "?access_token=" ++ accessToken` (the `?` is appended
unconditionally) and deletes `returnToUrl` from the session, so a second
run on the resulting session no longer redirects. -/
theorem resumeUserFlow_consumes_returnToUrl (s : Session) (u t : String)
    (hU : s.returnToUrl = some u) (hUne : u ≠ "")
    (hT : s.accessToken = some t) (hTne : t ≠ "") :
    resumeUserFlow s =
      (.redirect 302 (u ++ "?access_token=" ++ t), { s with returnToUrl := none }) ∧
    (resumeUserFlow { s with returnToUrl := none }).1 =
      .send "Resume User Flow (failed)" := by
  constructor
  · simp [resumeUserFlow, hU, hT, jsTruthy, hUne, hTne]
  · simp [resumeUserFlow, jsTruthy]

/-- A session holding both a saved return URL (which already carries a
query string) and an access token, for the C10 witness. -/
def resumeSession : Session :=
  ⟨none, false, some "tok123", none, none, none, none, some "https://ex.example/doc?x=1"⟩

/-- Witness for C10, with a return URL that already carries a query
string: the access token is still appended after a second `?`. -/
theorem resumeUserFlow_witness :
    resumeUserFlow resumeSession =
      (.redirect 302 "https://ex.example/doc?x=1?access_token=tok123",
        { resumeSession with returnToUrl := none }) ∧
    (resumeUserFlow { resumeSession with returnToUrl := none }).1 =
      .send "Resume User Flow (failed)" :=
  resumeUserFlow_consumes_returnToUrl resumeSession
    "https://ex.example/doc?x=1" "tok123" rfl (by decide) rfl (by decide)

/-- Claim C8: when the metadata probe succeeds but its response carries
no Link header (or a Link header without an `oidc.issuer` relation), the
discover-provider handler answers 400 with the fixed endpoint message and
never starts the authorization-URL flow, so no further network call is
made. -/
theorem discoverProvider_no_issuer_no_network
    (probe : Except String ProbeResponse) (resp : ProbeResponse)
    (liParse : String → List (String × String)) (clientsPresent : Bool)
    (authUrlForIssuer : String → Except String String)
    (hResp : probe = .ok resp)
    (hFail : jsTruthy resp.linkHeader = false ∨
      jsTruthy (lookupRel (liParse (resp.linkHeader.getD "")) "oidc.issuer") = false) :
    discoverProvider true true probe liParse clientsPresent authUrlForIssuer =
      (.httpError 400 "The URI requested is not a valid endpoint", false) := by
  subst hResp
  rcases hFail with h | h
  · simp [discoverProvider, h]
  · by_cases hL : jsTruthy resp.linkHeader = false
    · simp [discoverProvider, hL]
    · simp only [Bool.not_eq_false] at hL
      simp [discoverProvider, hL, h]

/-- Witness for C8: a probe response whose Link header has only an
unrelated relation, with a parser returning exactly that relation. -/
theorem discoverProvider_no_issuer_witness :
    discoverProvider true true (.ok ⟨some "<https://x.example>; rel=other"⟩)
      (fun _ => [("other", "https://x.example")]) true
      (fun i => .ok ("https://auth.example/" ++ i)) =
      (.httpError 400 "The URI requested is not a valid endpoint", false) :=
  discoverProvider_no_issuer_no_network
    (.ok ⟨some "<https://x.example>; rel=other"⟩)
    ⟨some "<https://x.example>; rel=other"⟩
    (fun _ => [("other", "https://x.example")]) true
    (fun i => .ok ("https://auth.example/" ++ i)) rfl (by decide)

/-- The session invariant of the spec: a session marked identified names
a user. -/
def SessionInv (s : Session) : Prop :=
  s.identified = true → s.userId ≠ none

/-- Claim C5: every operation of the subsystem — local signin, the RP
callback token exchange, signout, and session init — preserves the
invariant that `identified = true` implies a present `userId`: each
operation that sets `identified` to true writes a `some` user id in the
same step, and no operation leaves `identified` true with `userId`
absent. -/
theorem sessionInvariant_preserved (s : Session) (h : SessionInv s)
    (σ : StoreState) (bcryptCompare : String → String → Bool)
    (ldpAuthOidc : Bool) (body : String → Option String) (rootUrl : String)
    (issuerId : Option String) (clientResult : Except String Unit)
    (validateResult : Except String OidcResponse)
    (ldpAuthOidc2 : Bool) (upstream : Except String Unit)
    (webId : Option String) :
    SessionInv (signin σ bcryptCompare ldpAuthOidc body rootUrl s).2 ∧
    SessionInv (authCodeFlowCallback issuerId clientResult validateResult s).2.1 ∧
    SessionInv (signout ldpAuthOidc2 upstream s).session ∧
    SessionInv (authSessionInit webId s) := by
  refine ⟨?_, ?_, ?_, ?_⟩
  · unfold SessionInv signin
    dsimp only
    repeat' split
    all_goals first
      | exact h
      | (intro _; simp)
  · unfold SessionInv authCodeFlowCallback
    repeat' split
    all_goals first
      | exact h
      | (intro _; simp)
  · unfold SessionInv signout
    intro hid
    simp at hid
  · unfold SessionInv authSessionInit
    split
    · exact h
    · intro
      cases webId <;> simp_all [jsTruthy]

/-- Witness for C5: the invariant holds of the fresh session and of the
result of each operation run on it with concrete inputs. -/
theorem sessionInvariant_witness :
    SessionInv (signin emptyStore (fun _ _ => true) true (fun _ => none)
      "https://srv.example" emptySession).2 ∧
    SessionInv (authCodeFlowCallback (some "https%3A%2F%2Fop.example") (.ok ())
      (.ok ⟨"https://alice.example/profile#me", some "tok", none⟩)
      emptySession).2.1 ∧
    SessionInv (signout true (.error "upstream down") emptySession).session ∧
    SessionInv (authSessionInit (some "https://alice.example/profile#me")
      emptySession) :=
  sessionInvariant_preserved emptySession (fun hid => absurd hid (by decide))
    emptyStore (fun _ _ => true) true (fun _ => none) "https://srv.example"
    (some "https%3A%2F%2Fop.example") (.ok ())
    (.ok ⟨"https://alice.example/profile#me", some "tok", none⟩)
    true (.error "upstream down") (some "https://alice.example/profile#me")

/-- The shapes a `createUser` write trace can take: the email-index write
never precedes the completed primary `users` write. -/
def emailAfterUsers (tr : List StoreEvent) : Prop :=
  tr = [] ∨ (∃ k, tr = [.putUsers k]) ∨ ∃ k k2, tr = [.putUsers k, .putEmail k2]

/-- Claim C9: `createUser` performs the primary `users` write strictly
before the email-index write in every run, and a failure of the index put
after a successful primary put leaves exactly the defined partial state:
the primary record committed under its normalized key, the email index
untouched, no rollback, and the storage error surfaced. -/
theorem createUser_order_and_partial_failure (webId : String)
    (password email nameOpt : Option String) (hashed : String) (σ : StoreState)
    (hW : webId ≠ "") (hP : jsTruthy password = true)
    (hE : jsTruthy email = true) :
    (∀ w2 pw2 em2 nm2 hr2 u2 e2 σ2,
      emailAfterUsers (createUser w2 pw2 em2 nm2 hr2 u2 e2 σ2).2.2) ∧
    (createUser webId password email nameOpt (.ok hashed) true false σ).1 =
      .error (.storageError "users-by-email") ∧
    (createUser webId password email nameOpt (.ok hashed) true false σ).2.1.users
      (normalizeWebIdKey webId) = some ⟨webId, email, nameOpt, hashed⟩ ∧
    (createUser webId password email nameOpt (.ok hashed) true false σ).2.1.usersByEmail =
      σ.usersByEmail := by
  refine ⟨?_, ?_, ?_, ?_⟩
  · intro w2 pw2 em2 nm2 hr2 u2 e2 σ2
    unfold createUser
    repeat' split
    all_goals first
      | exact Or.inl rfl
      | exact Or.inr (Or.inl ⟨_, rfl⟩)
      | exact Or.inr (Or.inr ⟨_, _, rfl⟩)
  · simp [createUser, hW, hP, hE]
  · simp [createUser, hW, hP, hE, storePutUsers]
  · simp [createUser, hW, hP, hE, storePutUsers]

/-- Witness for C9 at a concrete account with an email, primary put
succeeding and index put failing. -/
theorem createUser_partial_failure_witness :
    (createUser "https://alice.example/profile#me" (some "pw1") (some "A@b.co")
      none (.ok "hash1") true false emptyStore).1 =
      .error (.storageError "users-by-email") ∧
    (createUser "https://alice.example/profile#me" (some "pw1") (some "A@b.co")
      none (.ok "hash1") true false emptyStore).2.1.users
      (normalizeWebIdKey "https://alice.example/profile#me") =
      some ⟨"https://alice.example/profile#me", some "A@b.co", none, "hash1"⟩ ∧
    (createUser "https://alice.example/profile#me" (some "pw1") (some "A@b.co")
      none (.ok "hash1") true false emptyStore).2.1.usersByEmail =
      emptyStore.usersByEmail :=
  ⟨(createUser_order_and_partial_failure "https://alice.example/profile#me"
      (some "pw1") (some "A@b.co") none "hash1" emptyStore
      (by decide) (by decide) (by decide)).2.1,
   (createUser_order_and_partial_failure "https://alice.example/profile#me"
      (some "pw1") (some "A@b.co") none "hash1" emptyStore
      (by decide) (by decide) (by decide)).2.2.1,
   (createUser_order_and_partial_failure "https://alice.example/profile#me"
      (some "pw1") (some "A@b.co") none "hash1" emptyStore
      (by decide) (by decide) (by decide)).2.2.2⟩

/-- ASCII lower-casing of a character, as JavaScript `toLowerCase` acts
on ASCII letters; used to state that two strings differ only in letter
case. -/
def asciiLower (c : Char) : Char :=
  if 65 ≤ c.toNat ∧ c.toNat ≤ 90 then Char.ofNat (c.toNat + 32) else c

/-- Two strings are case variants when they agree after ASCII
lower-casing of every character. -/
def sameModuloCase (a b : String) : Bool :=
  a.data.map asciiLower = b.data.map asciiLower

/-- Claim C2, counterexample: the claim asserts the email index key is
case-insensitive, but `normalizeEmailKey` is `encodeURIComponent`, which
preserves letter case.  Two emails differing only in case produce
different keys, and an account created with the capitalised email leaves
no index entry under the lowercase key. -/
theorem createUser_email_key_case_sensitive :
    ("Alice@b.co" : String) ≠ "alice@b.co" ∧
    sameModuloCase "Alice@b.co" "alice@b.co" = true ∧
    normalizeEmailKey "Alice@b.co" ≠ normalizeEmailKey "alice@b.co" ∧
    (createUser "https://alice.example/profile#me" (some "pw1") (some "Alice@b.co")
      none (.ok "hash1") true true emptyStore).2.1.usersByEmail
      (normalizeEmailKey "Alice@b.co") = some "https://alice.example/profile#me" ∧
    (createUser "https://alice.example/profile#me" (some "pw1") (some "Alice@b.co")
      none (.ok "hash1") true true emptyStore).2.1.usersByEmail
      (normalizeEmailKey "alice@b.co") = none := by
  decide

/-- Claim C2, amended: for every account created via `createUser` with an
email, the email index entry is stored under `encodeURIComponent(email)`
— a key that preserves the letter case of the email. -/
theorem createUser_email_key_encoded (webId : String)
    (password nameOpt : Option String) (e hashed : String) (σ : StoreState)
    (hW : webId ≠ "") (hP : jsTruthy password = true) (hEne : e ≠ "") :
    normalizeEmailKey e = encodeURIComponent e ∧
    (createUser webId password (some e) nameOpt (.ok hashed) true true
      σ).2.1.usersByEmail (encodeURIComponent e) = some webId := by
  refine ⟨rfl, ?_⟩
  have hE2 : jsTruthy (some e) = true := by simp [jsTruthy, hEne]
  simp [createUser, hW, hP, hE2, storePutUsers, storePutEmail,
    normalizeEmailKey]

/-- Witness for the amended C2 at a concrete account and email. -/
theorem createUser_email_key_encoded_witness :
    normalizeEmailKey "A@b.co" = encodeURIComponent "A@b.co" ∧
    (createUser "https://alice.example/profile#me" (some "pw1") (some "A@b.co")
      none (.ok "hash1") true true emptyStore).2.1.usersByEmail
      (encodeURIComponent "A@b.co") = some "https://alice.example/profile#me" :=
  createUser_email_key_encoded "https://alice.example/profile#me" (some "pw1")
    none "A@b.co" "hash1" emptyStore (by decide) (by decide) (by decide)

/-- The request body used by the C4 counterexample: username `alice`,
password `wrongpw`. -/
def signinBody : String → Option String := fun k =>
  if k = "username" then some "alice"
  else if k = "password" then some "wrongpw" else none

/-- A user store holding exactly one account, `alice`. -/
def aliceStore : StoreState :=
  storePutUsers emptyStore (normalizeWebIdKey "alice") ⟨"alice", none, none, "HASH"⟩

/-- Claim C4, counterexample: the claim asserts the two signin failure
runs are observationally indistinguishable (same status and message), but
the handler answers `No user found for that username` when the account is
missing and `Invalid password for user` when the password mismatches —
the same request distinguishes the two store states by the message. -/
theorem signin_failure_messages_differ :
    (signin emptyStore (fun _ _ => false) true signinBody "https://srv.example"
      emptySession) = (.httpError 400 "No user found for that username", emptySession) ∧
    (signin aliceStore (fun _ _ => false) true signinBody "https://srv.example"
      emptySession) = (.httpError 400 "Invalid password for user", emptySession) ∧
    ("No user found for that username" : String) ≠ "Invalid password for user" := by
  decide

/-- Claim C4, amended: both signin failure modes surface the same status
400 and leave the session unmodified, but with distinct fixed messages —
a missing account and a wrong password are distinguishable to the
caller. -/
theorem signin_failures_same_status_distinct_messages
    (σ : StoreState) (bcryptCompare : String → String → Bool)
    (body : String → Option String) (rootUrl : String) (s : Session)
    (hU : jsTruthy (body "username") = true)
    (hP : jsTruthy (body "password") = true) :
    (findUser σ ((body "username").getD "") = none →
      signin σ bcryptCompare true body rootUrl s =
        (.httpError 400 "No user found for that username", s)) ∧
    (∀ u, findUser σ ((body "username").getD "") = some u →
      bcryptCompare ((body "password").getD "") u.hashedPassword = false →
      signin σ bcryptCompare true body rootUrl s =
        (.httpError 400 "Invalid password for user", s)) := by
  constructor
  · intro hf
    simp [signin, hU, hP, hf]
  · intro u hf hc
    simp [signin, hU, hP, hf, hc]

/-- Witness for the amended C4: both failure shapes at concrete inputs. -/
theorem signin_failures_witness :
    signin emptyStore (fun _ _ => false) true signinBody "https://srv.example"
      emptySession = (.httpError 400 "No user found for that username", emptySession) ∧
    signin aliceStore (fun _ _ => false) true signinBody "https://srv.example"
      emptySession = (.httpError 400 "Invalid password for user", emptySession) :=
  ⟨(signin_failures_same_status_distinct_messages emptyStore (fun _ _ => false)
      signinBody "https://srv.example" emptySession (by decide) (by decide)).1
      (by decide),
   (signin_failures_same_status_distinct_messages aliceStore (fun _ _ => false)
      signinBody "https://srv.example" emptySession (by decide) (by decide)).2
      ⟨"alice", none, none, "HASH"⟩ (by decide) rfl⟩
